import Mathlib

/-!
Shallow embedding of `ConfigValueRangeChecker.validate_config` from
`src/main.py` (ShadowStrikeHQ/misconfig-configvaluerangechecker).

The configuration document is a string-keyed mapping of dynamically typed
values; the rule set is a list of arbitrary decoded JSON values (the code
iterates `self.rules_data` and calls `.get` on each element, so a rule
record need not be a mapping for the loop to reach it).  Python semantics
that matter here and are modelled explicitly:

* `bool` is a subclass of `int`, so `isinstance(True, int)` and
  `isinstance(True, (int, float))` are both true;
* `dict.get` returns `None` both when the key is absent and when the key
  is bound to `null`, and raises `TypeError` on an unhashable key;
* `rule.get(...)` on a non-mapping raises `AttributeError`; those calls
  (lines 102-105) sit OUTSIDE the per-rule `try` block, so that error
  propagates out of `validate_config`;
* ordering comparisons between a number and a non-number raise
  `TypeError`; that happens INSIDE the `try` block and is caught;
* `if not self.config_data` / `if not self.rules_data` (lines 93-98) are
  truthiness tests: an empty document or an empty rule list takes the
  "not loaded" early return (an ERROR log and verdict `False`);
* `logging` calls are side effects: diagnostics emitted before an
  uncaught exception are kept, later rules are never reached.

Exceptions are modelled with `Except String`; each evaluation returns the
list of emitted diagnostics together with either a verdict (`Except.ok`)
or an uncaught exception (`Except.error`).  Python floats are modelled as
rationals (no claim under scrutiny involves NaN/infinity or rounding).
-/

namespace MisconfigChecker

/-- A decoded JSON/YAML value as Python represents it
(`None`/`bool`/`int`/`float`/`str`/`list`/`dict`). -/
inductive Value where
  | null : Value
  | bool (b : Bool) : Value
  | int (n : Int) : Value
  | float (q : ℚ) : Value
  | str (s : String) : Value
  | list (elems : List Value) : Value
  | obj (fields : List (String × Value)) : Value

/-- Python `type(value).__name__` for each variant. -/
def typeName : Value → String
  | Value.null => "NoneType"
  | Value.bool _ => "bool"
  | Value.int _ => "int"
  | Value.float _ => "float"
  | Value.str _ => "str"
  | Value.list _ => "list"
  | Value.obj _ => "dict"

/-- Whether the value is Python `None`. -/
def Value.isNull : Value → Bool
  | Value.null => true
  | _ => false

/-- Whether the value is a mapping (has a `.get` attribute). -/
def Value.isObj : Value → Bool
  | Value.obj _ => true
  | _ => false

/-- Whether the value equals a given Python string literal
(`data_type == 'integer'` and friends: false for any non-string). -/
def Value.isStrEq : Value → String → Bool
  | Value.str t, s => t == s
  | _, _ => false

/-- Whether the value is hashable (usable as a `dict.get` key):
everything except lists and dicts. -/
def Value.hashable : Value → Bool
  | Value.list _ => false
  | Value.obj _ => false
  | _ => true

/-- Numeric view used by Python comparisons: `bool` counts as 0/1,
`int` and `float` as themselves, everything else is non-numeric. -/
def toNum : Value → Option ℚ
  | Value.bool b => some (if b then 1 else 0)
  | Value.int n => some (n : ℚ)
  | Value.float q => some q
  | _ => none

/-- Python `isinstance(value, int)`: true for `int` AND `bool` (Python `bool`
is a subclass of `int`). -/
def isInstInt : Value → Bool
  | Value.int _ => true
  | Value.bool _ => true
  | _ => false

/-- Python `isinstance(value, (int, float))`: ints, floats, and bools. -/
def isInstFloat : Value → Bool
  | Value.int _ => true
  | Value.float _ => true
  | Value.bool _ => true
  | _ => false

/-- Python `isinstance(value, str)`. -/
def isInstStr : Value → Bool
  | Value.str _ => true
  | _ => false

/-- Python `isinstance(value, bool)`. -/
def isInstBool : Value → Bool
  | Value.bool _ => true
  | _ => false

/-- Python `isinstance(value, list)`. -/
def isInstList : Value → Bool
  | Value.list _ => true
  | _ => false

/-- Python `a < b` on config values: defined between numeric kinds,
raises `TypeError` when an operand is non-numeric (the only comparisons
`validate_config` performs have a numeric left operand). -/
def pyLt (a b : Value) : Except String Bool :=
  match toNum a, toNum b with
  | some x, some y => Except.ok (decide (x < y))
  | _, _ =>
      Except.error ("TypeError: comparison not supported between " ++
        typeName a ++ " and " ++ typeName b)

/-- Diagnostic severity: `logging.warning` vs `logging.error`. -/
inductive Severity where
  | warning : Severity
  | error : Severity
deriving DecidableEq

/-- One diagnostic record, abstracting the log messages of
`validate_config` (constructor = message template, arguments = the values
interpolated into it). -/
inductive Diag where
  | notLoadedConfig : Diag
  | notLoadedRules : Diag
  | paramNotFound (p : Value) : Diag
  | typeMismatch (p : Value) (expected got : String) : Diag
  | lessThanMin (p v bound : Value) : Diag
  | greaterThanMax (p v bound : Value) : Diag
  | ruleFault (p : Value) (msg : String) : Diag

/-- Severity of each diagnostic: only "parameter not found" is logged
with `logging.warning`; every other message uses `logging.error`. -/
def Diag.severity : Diag → Severity
  | Diag.paramNotFound _ => Severity.warning
  | _ => Severity.error

/-- Python `rule.get(key)` on a mapping: `None` when the key is absent. -/
def fieldGet (fields : List (String × Value)) (k : String) : Value :=
  (List.lookup k fields).getD Value.null

/-- Lookup `self.config_data.get(parameter)` (line 108): raises `TypeError` on
an unhashable key, returns `None` for an absent key (the document is
string-keyed, so any non-string hashable key is absent). -/
def docGet (doc : List (String × Value)) (p : Value) : Except String Value :=
  match p with
  | Value.list _ => Except.error "TypeError: unhashable type list"
  | Value.obj _ => Except.error "TypeError: unhashable type dict"
  | Value.str s => Except.ok ((List.lookup s doc).getD Value.null)
  | _ => Except.ok Value.null

/-- Type validation chain, lines 115-139: returns the mismatch
diagnostic, or `none` when the check passes or no recognized type name
is declared. -/
def typeCheckDiag (p dt value : Value) : Option Diag :=
  if dt.isStrEq "integer" then
    if isInstInt value then none
    else some (Diag.typeMismatch p "integer" (typeName value))
  else if dt.isStrEq "float" then
    if isInstFloat value then none
    else some (Diag.typeMismatch p "float" (typeName value))
  else if dt.isStrEq "string" then
    if isInstStr value then none
    else some (Diag.typeMismatch p "string" (typeName value))
  else if dt.isStrEq "boolean" then
    if isInstBool value then none
    else some (Diag.typeMismatch p "boolean" (typeName value))
  else if dt.isStrEq "list" then
    if isInstList value then none
    else some (Diag.typeMismatch p "list" (typeName value))
  else none

/-- Line 143, `min_value is not None and value < min_value`: emits the
"less than minimum" diagnostic, or raises if the comparison does. -/
def boundLow (p value mn : Value) : Except String (List Diag × Bool) :=
  if mn.isNull then Except.ok ([], true)
  else
    match pyLt value mn with
    | Except.error e => Except.error e
    | Except.ok lt =>
        Except.ok (if lt then ([Diag.lessThanMin p value mn], false) else ([], true))

/-- Line 146, `max_value is not None and value > max_value`. -/
def boundHigh (p value mx : Value) : Except String (List Diag × Bool) :=
  if mx.isNull then Except.ok ([], true)
  else
    match pyLt mx value with
    | Except.error e => Except.error e
    | Except.ok gt =>
        Except.ok (if gt then ([Diag.greaterThanMax p value mx], false) else ([], true))

/-- Range validation, lines 142-148: the min check runs first; if its
comparison raises, the max check is never reached; a diagnostic already
logged by the min check survives a raise in the max check. -/
def rangeChecks (p value mn mx : Value) : List Diag × Except String Bool :=
  match boundLow p value mn with
  | Except.error e => ([], Except.error e)
  | Except.ok r1 =>
      match boundHigh p value mx with
      | Except.error e => (r1.1, Except.error e)
      | Except.ok r2 => (r1.1 ++ r2.1, Except.ok (r1.2 && r2.2))

/-- Body of the per-rule `try` block, lines 108-151: look the parameter
up, warn and skip on `None`, run the type check (with `continue` on
mismatch), then the range checks for numeric types.  Returns the
diagnostics logged so far plus the rule verdict or an exception. -/
def ruleBody (doc : List (String × Value)) (p dt mn mx : Value) :
    List Diag × Except String Bool :=
  match docGet doc p with
  | Except.error e => ([], Except.error e)
  | Except.ok value =>
      if value.isNull then ([Diag.paramNotFound p], Except.ok true)
      else
        match typeCheckDiag p dt value with
        | some d => ([d], Except.ok false)
        | none =>
            if dt.isStrEq "integer" || dt.isStrEq "float" then
              rangeChecks p value mn mx
            else ([], Except.ok true)

/-- One loop iteration on a mapping rule record: extract the four fields
(lines 102-105), run the `try` body, and on an exception convert it into
the `except` clause diagnostic (lines 152-154) with verdict `false`. -/
def evalObjRule (doc : List (String × Value)) (fields : List (String × Value)) :
    List Diag × Bool :=
  let p := fieldGet fields "parameter"
  match ruleBody doc p (fieldGet fields "type") (fieldGet fields "min")
      (fieldGet fields "max") with
  | (ds, Except.ok b) => (ds, b)
  | (ds, Except.error e) => (ds ++ [Diag.ruleFault p e], false)

/-- One loop iteration on an arbitrary rule record: `rule.get` on a
non-mapping raises `AttributeError` outside the `try` block, so it is
an uncaught exception. -/
def evalRule (doc : List (String × Value)) : Value → Except String (List Diag × Bool)
  | Value.obj fields => Except.ok (evalObjRule doc fields)
  | v => Except.error ("AttributeError: " ++ typeName v ++ " object has no attribute get")

/-- Total per-rule outcome, meaningful for mapping rule records (the
only ones whose evaluation terminates normally). -/
def evalRuleT (doc : List (String × Value)) (r : Value) : List Diag × Bool :=
  match r with
  | Value.obj fields => evalObjRule doc fields
  | _ => ([], false)

/-- The `for rule in self.rules_data` loop, lines 101-154: diagnostics
accumulate across iterations; an uncaught exception stops the loop,
keeping the diagnostics already emitted. -/
def runRules (doc : List (String × Value)) : List Value → List Diag × Except String Bool
  | [] => ([], Except.ok true)
  | r :: rest =>
      match evalRule doc r with
      | Except.error e => ([], Except.error e)
      | Except.ok (d, ok1) =>
          let tail := runRules doc rest
          (d ++ tail.1,
            match tail.2 with
            | Except.ok b => Except.ok (ok1 && b)
            | Except.error e => Except.error e)

/-- The method `validate_config` (lines 86-156) on an already-loaded document and
rule list.  `if not self.config_data` / `if not self.rules_data` are
truthiness tests, so an empty document or an empty rule list takes the
"not loaded" early return: one ERROR diagnostic and verdict `False`. -/
def validate_config (doc : List (String × Value)) (rules : List Value) :
    List Diag × Except String Bool :=
  if doc.isEmpty then ([Diag.notLoadedConfig], Except.ok false)
  else if rules.isEmpty then ([Diag.notLoadedRules], Except.ok false)
  else runRules doc rules

/-- The value `validate_config` sees for a rule parameter when the
lookup does not raise (`None` when absent or bound to null). -/
def docGetD (doc : List (String × Value)) (p : Value) : Value :=
  match docGet doc p with
  | Except.ok v => v
  | Except.error _ => Value.null

/-- The `parameter` field of a rule record (`None` for a non-mapping,
which is only used under a mapping hypothesis). -/
def paramOf : Value → Value
  | Value.obj fields => fieldGet fields "parameter"
  | _ => Value.null

/-! ## Helper lemmas -/

lemma isObj_iff (r : Value) : r.isObj = true ↔ ∃ f, r = Value.obj f := by
  cases r <;> simp [Value.isObj]

lemma docGet_hashable (doc : List (String × Value)) (p : Value)
    (h : p.hashable = true) : docGet doc p = Except.ok (docGetD doc p) := by
  cases p <;> simp [Value.hashable] at h ⊢ <;> rfl

lemma toNum_not_null (v : Value) (q : ℚ) (h : toNum v = some q) :
    v.isNull = false := by
  cases v <;> simp [toNum, Value.isNull] at h ⊢

lemma lookup_filter_self (s : String) (l : List (String × Value)) :
    List.lookup s (l.filter (fun kv => !(kv.1 == s))) = none := by
  induction l with
  | nil => rfl
  | cons kv t ih =>
      by_cases h : kv.1 = s
      · simpa [List.filter, h] using ih
      · have hb : (kv.1 == s) = false := beq_eq_false_iff_ne.mpr h
        have hb2 : (s == kv.1) = false := beq_eq_false_iff_ne.mpr (Ne.symm h)
        simp [List.filter, hb, List.lookup, hb2, ih]

lemma all_congr_mem {α : Type} {f g : α → Bool} :
    ∀ rs : List α, (∀ x ∈ rs, f x = g x) → rs.all f = rs.all g
  | [], _ => rfl
  | y :: ys, hfg => by
      have hhd := hfg y (List.mem_cons_self y ys)
      have htl := all_congr_mem ys fun x hx => hfg x (List.mem_cons_of_mem y hx)
      simp [List.all_cons, hhd, htl]

/-- Under the loop, each mapping rule record contributes its diagnostics
and verdict; the whole run is the concatenation of per-rule diagnostics
and the AND of per-rule verdicts. -/
lemma runRules_obj (doc : List (String × Value)) (rules : List Value)
    (h : ∀ r ∈ rules, r.isObj = true) :
    runRules doc rules =
      (rules.flatMap (fun r => (evalRuleT doc r).1),
       Except.ok (rules.all (fun r => (evalRuleT doc r).2))) := by
  induction rules with
  | nil => rfl
  | cons r rest ih =>
      have hr := h r (List.mem_cons_self r rest)
      have hrest : ∀ x ∈ rest, x.isObj = true :=
        fun x hx => h x (List.mem_cons_of_mem r hx)
      obtain ⟨fields, rfl⟩ := (isObj_iff r).mp hr
      simp [runRules, evalRule, ih hrest, evalRuleT]

/-! ## Claim theorems -/

/-- C1: the claim states that a boolean value under a rule of type
"integer" always yields a TypeMismatch Error and verdict false.  The
code disagrees: `isinstance(value, int)` is true for Python booleans
(bool is a subclass of int), so on the document `{"flag": true}` with
the rule `{"parameter": "flag", "type": "integer"}` the type check
passes, no diagnostic at all is emitted, and the verdict is true. -/
theorem c1_bool_passes_integer_rule :
    validate_config [("flag", Value.bool true)]
      [Value.obj [("parameter", Value.str "flag"), ("type", Value.str "integer")]] =
    ([], Except.ok true) := rfl

/-- C2: the claim (spec Scenario D) states that the empty document with
the rule `{"parameter": "name", "type": "string"}` yields verdict true
with one Warning and zero Errors.  The code disagrees: the guard
`if not self.config_data` is a truthiness test, an empty dict is falsy,
so `validate_config` logs the Error "Configuration data is not loaded."
and returns False before looking at any rule. -/
theorem c2_empty_document_not_loaded :
    validate_config []
      [Value.obj [("parameter", Value.str "name"), ("type", Value.str "string")]] =
    ([Diag.notLoadedConfig], Except.ok false) := rfl

/-- C9: a parameter bound to null is treated exactly as an absent one:
`dict.get` returns `None` in both cases, so the rule emits the
"parameter not found" Warning, skips type and range checks regardless of
the declared type, and passes — and erasing the key from the document
changes nothing. -/
theorem c9_null_value_treated_as_missing (doc fields : List (String × Value))
    (s : String)
    (hp : fieldGet fields "parameter" = Value.str s)
    (hnull : List.lookup s doc = some Value.null) :
    evalObjRule doc fields = ([Diag.paramNotFound (Value.str s)], true) ∧
    evalObjRule doc fields =
      evalObjRule (doc.filter (fun kv => !(kv.1 == s))) fields := by
  have h1 : evalObjRule doc fields = ([Diag.paramNotFound (Value.str s)], true) := by
    simp [evalObjRule, ruleBody, hp, docGet, hnull, Value.isNull]
  refine ⟨h1, h1.trans ?_⟩
  simp [evalObjRule, ruleBody, hp, docGet, lookup_filter_self, Value.isNull]

/-- Witness for C9 at the document `{"x": null}` and the rule
`{"parameter": "x", "type": "string"}`. -/
theorem c9_witness :
    evalObjRule [("x", Value.null)]
      [("parameter", Value.str "x"), ("type", Value.str "string")] =
    ([Diag.paramNotFound (Value.str "x")], true) :=
  (c9_null_value_treated_as_missing [("x", Value.null)]
    [("parameter", Value.str "x"), ("type", Value.str "string")] "x" rfl rfl).1

/-- C10: a declared type outside the five recognized names hits no
branch of the `elif` chain and fails the `data_type in (integer, float)`
test, so no type check and no range check run even with min/max present:
the rule contributes no diagnostic and passes, identically to a rule
with no type field at all. -/
theorem c10_unrecognized_type_no_checks
    (doc fields fields2 : List (String × Value)) (v : Value) (t : String)
    (ht : fieldGet fields "type" = Value.str t)
    (hne : ¬(t = "integer" ∨ t = "float" ∨ t = "string" ∨ t = "boolean" ∨ t = "list"))
    (hv : docGet doc (fieldGet fields "parameter") = Except.ok v)
    (hvn : v.isNull = false)
    (hp2 : fieldGet fields2 "parameter" = fieldGet fields "parameter")
    (ht2 : fieldGet fields2 "type" = Value.null) :
    evalObjRule doc fields = ([], true) ∧ evalObjRule doc fields2 = ([], true) := by
  push_neg at hne
  obtain ⟨h1, h2, h3, h4, h5⟩ := hne
  constructor
  · simp [evalObjRule, ruleBody, ht, hv, hvn, typeCheckDiag, Value.isStrEq,
      beq_eq_false_iff_ne.mpr h1, beq_eq_false_iff_ne.mpr h2,
      beq_eq_false_iff_ne.mpr h3, beq_eq_false_iff_ne.mpr h4,
      beq_eq_false_iff_ne.mpr h5]
  · simp [evalObjRule, ruleBody, hp2, ht2, hv, hvn, typeCheckDiag, Value.isStrEq]

/-- Witness for C10: type "number" with a min bound present, on a
document where the parameter holds 3. -/
theorem c10_witness :
    evalObjRule [("x", Value.int 3)]
      [("parameter", Value.str "x"), ("type", Value.str "number"), ("min", Value.int 10)] =
      ([], true) ∧
    evalObjRule [("x", Value.int 3)] [("parameter", Value.str "x")] = ([], true) :=
  c10_unrecognized_type_no_checks [("x", Value.int 3)]
    [("parameter", Value.str "x"), ("type", Value.str "number"), ("min", Value.int 10)]
    [("parameter", Value.str "x")] (Value.int 3) "number"
    rfl (by decide) rfl rfl rfl rfl

/-- C5: when a rule declares type "integer" or "float" and the present
value fails the corresponding `isinstance` test, the rule emits exactly
one diagnostic — the TypeMismatch Error — and `continue` skips the range
checks entirely, so no RangeViolation can appear even with min/max
bounds present.  ("Wrong kind" here is the kind test the code performs:
booleans count as ints per Python subclassing, which is claim C1.) -/
theorem c5_type_mismatch_skips_range
    (doc fields : List (String × Value)) (v : Value) (ty : String)
    (hty : fieldGet fields "type" = Value.str ty)
    (hwrong : ty = "integer" ∧ isInstInt v = false ∨
      ty = "float" ∧ isInstFloat v = false)
    (hv : docGet doc (fieldGet fields "parameter") = Except.ok v)
    (hvn : v.isNull = false) :
    evalObjRule doc fields =
      ([Diag.typeMismatch (fieldGet fields "parameter") ty (typeName v)], false) ∧
    (Diag.typeMismatch (fieldGet fields "parameter") ty (typeName v)).severity =
      Severity.error := by
  refine ⟨?_, rfl⟩
  rcases hwrong with ⟨rfl, hw⟩ | ⟨rfl, hw⟩
  · simp [evalObjRule, ruleBody, hty, hv, hvn, typeCheckDiag, Value.isStrEq, hw]
  · simp [evalObjRule, ruleBody, hty, hv, hvn, typeCheckDiag, Value.isStrEq, hw]

/-- Witness for C5: a string value under an integer rule that also has
a min bound; only the mismatch diagnostic appears. -/
theorem c5_witness :
    evalObjRule [("x", Value.str "a")]
      [("parameter", Value.str "x"), ("type", Value.str "integer"), ("min", Value.int 0)] =
      ([Diag.typeMismatch (Value.str "x") "integer" "str"], false) ∧
    (Diag.typeMismatch (Value.str "x") "integer" "str").severity = Severity.error :=
  c5_type_mismatch_skips_range [("x", Value.str "a")]
    [("parameter", Value.str "x"), ("type", Value.str "integer"), ("min", Value.int 0)]
    (Value.str "a") "integer" rfl (Or.inl ⟨rfl, rfl⟩) rfl rfl

/-- C6: for a numeric rule whose present value matched the type check
and whose min and max bounds are both numeric, the two bounds are
checked independently: the diagnostics are exactly the "less than
minimum" Error when value < min, followed by the "greater than maximum"
Error when value > max — so a value violating both (possible when
min > max) produces both, and the rule verdict is the conjunction of the
two individual outcomes. -/
theorem c6_bounds_checked_independently
    (doc fields : List (String × Value)) (v : Value) (q qm qM : ℚ)
    (hty : fieldGet fields "type" = Value.str "integer" ∨
      fieldGet fields "type" = Value.str "float")
    (hv : docGet doc (fieldGet fields "parameter") = Except.ok v)
    (hvn : v.isNull = false)
    (hmatch : typeCheckDiag (fieldGet fields "parameter") (fieldGet fields "type") v = none)
    (hq : toNum v = some q)
    (hqm : toNum (fieldGet fields "min") = some qm)
    (hqM : toNum (fieldGet fields "max") = some qM) :
    evalObjRule doc fields =
      ((if q < qm then
          [Diag.lessThanMin (fieldGet fields "parameter") v (fieldGet fields "min")]
        else []) ++
       (if qM < q then
          [Diag.greaterThanMax (fieldGet fields "parameter") v (fieldGet fields "max")]
        else []),
       !decide (q < qm) && !decide (qM < q)) := by
  have hmn := toNum_not_null _ _ hqm
  have hmx := toNum_not_null _ _ hqM
  have hcond : ((fieldGet fields "type").isStrEq "integer" ||
      (fieldGet fields "type").isStrEq "float") = true := by
    rcases hty with h | h <;> simp [h, Value.isStrEq]
  simp only [evalObjRule, ruleBody, hv, hvn, Bool.false_eq_true, if_false, hmatch]
  rw [if_pos hcond]
  simp only [rangeChecks, boundLow, boundHigh, hmn, hmx, Bool.false_eq_true,
    if_false, pyLt, hq, hqm, hqM]
  by_cases h1 : q < qm <;> by_cases h2 : qM < q <;>
    simp [h1, h2]

/-- Witness for C6 with min 10 and max 0 (min above max) and value 5:
both range diagnostics fire on the single rule. -/
theorem c6_witness :
    evalObjRule [("p", Value.int 5)]
      [("parameter", Value.str "p"), ("type", Value.str "integer"),
        ("min", Value.int 10), ("max", Value.int 0)] =
    ([Diag.lessThanMin (Value.str "p") (Value.int 5) (Value.int 10),
      Diag.greaterThanMax (Value.str "p") (Value.int 5) (Value.int 0)], false) := by
  have h := c6_bounds_checked_independently [("p", Value.int 5)]
    [("parameter", Value.str "p"), ("type", Value.str "integer"),
      ("min", Value.int 10), ("max", Value.int 0)]
    (Value.int 5) 5 10 0 (Or.inl rfl) rfl rfl rfl rfl rfl rfl
  rw [h]
  rfl

/-- C7 counterexample: the claim says a malformed rule record is caught
and converted into an Error diagnostic.  But `rule.get(...)` is called
at lines 102-105, BEFORE the `try` block: on the rule list
`["bad"]` (a string instead of a mapping) the AttributeError propagates
out of `validate_config` uncaught, with no diagnostic at all. -/
theorem c7_counterexample :
    validate_config [("a", Value.int 1)] [Value.str "bad"] =
      ([], Except.error "AttributeError: str object has no attribute get") := rfl

/-- C7 amended: any failure raised inside the per-rule `try` body
(lines 107-151: value lookup, type check, range comparisons) is caught
by the `except` clause, converted into an Error diagnostic naming the
rule's parameter, forces the rule verdict false, and evaluation of the
remaining rules continues with their diagnostics and verdicts intact.
Field access on the rule record itself, however, happens before the
`try`, so a non-mapping rule record still propagates (see the
counterexample). -/
theorem c7_fault_caught_and_loop_continues
    (doc fields : List (String × Value)) (rest : List Value)
    (ds : List Diag) (e : String)
    (hfault : ruleBody doc (fieldGet fields "parameter") (fieldGet fields "type")
        (fieldGet fields "min") (fieldGet fields "max") = (ds, Except.error e)) :
    evalObjRule doc fields =
      (ds ++ [Diag.ruleFault (fieldGet fields "parameter") e], false) ∧
    runRules doc (Value.obj fields :: rest) =
      ((ds ++ [Diag.ruleFault (fieldGet fields "parameter") e]) ++ (runRules doc rest).1,
        Except.map (fun _ => false) (runRules doc rest).2) := by
  have h1 : evalObjRule doc fields =
      (ds ++ [Diag.ruleFault (fieldGet fields "parameter") e], false) := by
    simp [evalObjRule, hfault]
  refine ⟨h1, ?_⟩
  simp only [runRules, evalRule, h1]
  cases hres : (runRules doc rest).2 with
  | ok b => simp [hres, Except.map]
  | error e2 => simp [hres, Except.map]

/-- Witness for C7: the rule declares min "z" (a string), so the
comparison `1 < "z"` raises a TypeError inside the `try` block; it is
converted into the rule-fault Error and the next rule (an absent
parameter, yielding its Warning) is still evaluated. -/
theorem c7_witness :
    runRules [("a", Value.int 1)]
      [Value.obj [("parameter", Value.str "a"), ("type", Value.str "integer"),
         ("min", Value.str "z")],
       Value.obj [("parameter", Value.str "missing")]] =
    ([Diag.ruleFault (Value.str "a")
        "TypeError: comparison not supported between int and str",
      Diag.paramNotFound (Value.str "missing")], Except.ok false) :=
  ((c7_fault_caught_and_loop_continues [("a", Value.int 1)]
    [("parameter", Value.str "a"), ("type", Value.str "integer"), ("min", Value.str "z")]
    [Value.obj [("parameter", Value.str "missing")]]
    [] "TypeError: comparison not supported between int and str" rfl).2).trans rfl

/-- C3 counterexample: on the empty document with the single rule
`{"parameter": "name"}`, the rule's parameter is absent (the document
has no entries at all), so per the claim every rule whose parameter is
present passes vacuously and the verdict should be true; the code
returns false (the falsy-empty-dict guard). -/
theorem c3_counterexample :
    List.lookup "name" ([] : List (String × Value)) = none ∧
    (validate_config [] [Value.obj [("parameter", Value.str "name")]]).2 =
      Except.ok false :=
  ⟨rfl, rfl⟩

/-- C3 amended: provided the document and the rule set are non-empty,
every rule record is a mapping and every rule's parameter field is
hashable, a rule whose parameter is absent from the document (or bound
to null) contributes exactly one Warning-severity diagnostic, never an
Error, and passes; and the overall verdict is true iff every rule whose
parameter is present with a non-null value passes its checks. -/
theorem c3_missing_param_never_fails_verdict
    (doc : List (String × Value)) (rules : List Value)
    (hd : doc.isEmpty = false) (hr : rules.isEmpty = false)
    (hobj : ∀ r ∈ rules, r.isObj = true)
    (hhash : ∀ r ∈ rules, (paramOf r).hashable = true) :
    (∀ r ∈ rules, docGetD doc (paramOf r) = Value.null →
      evalRuleT doc r = ([Diag.paramNotFound (paramOf r)], true) ∧
      (Diag.paramNotFound (paramOf r)).severity = Severity.warning) ∧
    (validate_config doc rules).2 =
      Except.ok (rules.all (fun r =>
        (docGetD doc (paramOf r)).isNull || (evalRuleT doc r).2)) := by
  have habsent : ∀ r ∈ rules, docGetD doc (paramOf r) = Value.null →
      evalRuleT doc r = ([Diag.paramNotFound (paramOf r)], true) := by
    intro r hrm hmiss
    obtain ⟨fields, rfl⟩ := (isObj_iff r).mp (hobj r hrm)
    have hget := docGet_hashable doc (paramOf (Value.obj fields)) (hhash _ hrm)
    rw [hmiss] at hget
    simp [evalRuleT, evalObjRule, ruleBody, paramOf] at hget ⊢
    simp [hget, Value.isNull]
  refine ⟨fun r hrm hmiss => ⟨habsent r hrm hmiss, rfl⟩, ?_⟩
  have hrun := runRules_obj doc rules hobj
  have hv : validate_config doc rules = runRules doc rules := by
    simp [validate_config, hd, hr]
  rw [hv, hrun]
  have hall : rules.all (fun r => (evalRuleT doc r).2) =
      rules.all (fun r => (docGetD doc (paramOf r)).isNull || (evalRuleT doc r).2) := by
    refine all_congr_mem rules (fun r hrm => ?_)
    cases hmiss : (docGetD doc (paramOf r)).isNull with
    | false => simp
    | true =>
        have : docGetD doc (paramOf r) = Value.null := by
          cases h : docGetD doc (paramOf r) <;> simp [h, Value.isNull] at hmiss ⊢
        rw [habsent r hrm this]
        simp
  rw [hall]

/-- Witness for C3: document `{"a": 1}` with one rule whose parameter
"b" is absent; the verdict is true. -/
theorem c3_witness :
    (validate_config [("a", Value.int 1)]
      [Value.obj [("parameter", Value.str "b"), ("type", Value.str "integer")]]).2 =
    Except.ok true :=
  ((c3_missing_param_never_fails_verdict [("a", Value.int 1)]
    [Value.obj [("parameter", Value.str "b"), ("type", Value.str "integer")]]
    rfl rfl (by decide) (by decide)).2).trans rfl

/-- C4 counterexample: on the empty rule set (with a non-empty
document) the claim's conjunction over per-rule outcomes is the empty
conjunction, i.e. true with no diagnostics; the code instead takes the
falsy-empty-list guard `if not self.rules_data`, emits an Error and
returns false — so the verdict is NOT the AND of the per-rule
outcomes for every rule set. -/
theorem c4_counterexample :
    (validate_config [("a", Value.int 1)] []).2 ≠
      Except.ok (List.all [] (fun r => (evalRuleT [("a", Value.int 1)] r).2)) := by
  simp [validate_config]

/-- C4 amended: provided the document and the rule set are non-empty
and every rule record is a mapping, `validate_config` evaluates every
rule: the emitted diagnostics are the concatenation of each rule's
diagnostics (a failing rule never suppresses later rules) and the
verdict is the AND of the per-rule outcomes. -/
theorem c4_all_rules_evaluated
    (doc : List (String × Value)) (rules : List Value)
    (hd : doc.isEmpty = false) (hr : rules.isEmpty = false)
    (hobj : ∀ r ∈ rules, r.isObj = true) :
    validate_config doc rules =
      (rules.flatMap (fun r => (evalRuleT doc r).1),
       Except.ok (rules.all (fun r => (evalRuleT doc r).2))) := by
  rw [show validate_config doc rules = runRules doc rules by
    simp [validate_config, hd, hr]]
  exact runRules_obj doc rules hobj

/-- Witness for C4: two rules, the first fails with a range Error, the
second (absent parameter) is still evaluated and its Warning collected;
the verdict is the AND of the outcomes. -/
theorem c4_witness :
    validate_config [("port", Value.int 80)]
      [Value.obj [("parameter", Value.str "port"), ("type", Value.str "integer"),
         ("min", Value.int 1024)],
       Value.obj [("parameter", Value.str "b")]] =
    ([Diag.lessThanMin (Value.str "port") (Value.int 80) (Value.int 1024),
      Diag.paramNotFound (Value.str "b")], Except.ok false) :=
  (c4_all_rules_evaluated [("port", Value.int 80)]
    [Value.obj [("parameter", Value.str "port"), ("type", Value.str "integer"),
       ("min", Value.int 1024)],
     Value.obj [("parameter", Value.str "b")]]
    rfl rfl (by decide)).trans rfl

/-- C8 counterexample: with a non-mapping record in the rule set, the
uncaught AttributeError stops the loop, so the diagnostics emitted
depend on where the bad record sits.  `[r, "bad"]` and `["bad", r]` are
permutations of each other, yet the first run emits the TypeMismatch
Error of `r` and the second emits nothing — different multisets. -/
theorem c8_counterexample :
    List.Perm
      [Value.obj [("parameter", Value.str "a"), ("type", Value.str "string")],
        Value.str "bad"]
      [Value.str "bad",
        Value.obj [("parameter", Value.str "a"), ("type", Value.str "string")]] ∧
    ¬ List.Perm
      (validate_config [("a", Value.int 1)]
        [Value.obj [("parameter", Value.str "a"), ("type", Value.str "string")],
          Value.str "bad"]).1
      (validate_config [("a", Value.int 1)]
        [Value.str "bad",
          Value.obj [("parameter", Value.str "a"), ("type", Value.str "string")]]).1 :=
  ⟨List.Perm.swap _ _ _, fun h => absurd h.length_eq (by decide)⟩

/-- C8 amended: provided every rule record is a mapping, permuting the
rule set permutes the diagnostic sequence (hence preserves the multiset
of diagnostics, and a fortiori of their (parameter, severity, kind)
tuples) and leaves the overall verdict unchanged. -/
theorem c8_permutation_invariance
    (doc : List (String × Value)) (rules1 rules2 : List Value)
    (hobj : ∀ r ∈ rules1, r.isObj = true)
    (hperm : List.Perm rules1 rules2) :
    List.Perm (validate_config doc rules1).1 (validate_config doc rules2).1 ∧
    (validate_config doc rules1).2 = (validate_config doc rules2).2 := by
  have hobj2 : ∀ r ∈ rules2, r.isObj = true :=
    fun r hr => hobj r (hperm.mem_iff.mpr hr)
  by_cases hd : doc.isEmpty
  · simp [validate_config, hd]
  · have hdf : doc.isEmpty = false := by simpa using hd
    by_cases hr1 : rules1.isEmpty
    · have h1 : rules1 = [] := List.isEmpty_iff.mp hr1
      subst h1
      have h2 : rules2 = [] := hperm.symm.eq_nil
      subst h2
      simp [validate_config]
    · have hr1f : rules1.isEmpty = false := by simpa using hr1
      have hr2f : rules2.isEmpty = false := by
        cases h2 : rules2 with
        | nil => exact absurd (h2 ▸ hperm).eq_nil (by simpa using hr1)
        | cons a t => rfl
      have e1 : validate_config doc rules1 = runRules doc rules1 := by
        simp [validate_config, hdf, hr1f]
      have e2 : validate_config doc rules2 = runRules doc rules2 := by
        simp [validate_config, hdf, hr2f]
      rw [e1, e2, runRules_obj doc rules1 hobj, runRules_obj doc rules2 hobj2]
      refine ⟨hperm.flatMap_right _, ?_⟩
      have hiff : rules1.all (fun r => (evalRuleT doc r).2) = true ↔
          rules2.all (fun r => (evalRuleT doc r).2) = true := by
        simp only [List.all_eq_true]
        exact ⟨fun H x hx => H x (hperm.mem_iff.mpr hx),
          fun H x hx => H x (hperm.mem_iff.mp hx)⟩
      have hall : rules1.all (fun r => (evalRuleT doc r).2) =
          rules2.all (fun r => (evalRuleT doc r).2) := by
        cases hA : rules1.all (fun r => (evalRuleT doc r).2) <;>
          cases hB : rules2.all (fun r => (evalRuleT doc r).2) <;> simp_all
      rw [hall]

/-- Witness for C8: swapping a passing rule and a failing rule permutes
the two diagnostics and keeps the verdict false. -/
theorem c8_witness :
    List.Perm
      (validate_config [("port", Value.int 80)]
        [Value.obj [("parameter", Value.str "port"), ("type", Value.str "integer"),
           ("min", Value.int 1024)],
         Value.obj [("parameter", Value.str "b")]]).1
      (validate_config [("port", Value.int 80)]
        [Value.obj [("parameter", Value.str "b")],
         Value.obj [("parameter", Value.str "port"), ("type", Value.str "integer"),
           ("min", Value.int 1024)]]).1 ∧
    (validate_config [("port", Value.int 80)]
        [Value.obj [("parameter", Value.str "port"), ("type", Value.str "integer"),
           ("min", Value.int 1024)],
         Value.obj [("parameter", Value.str "b")]]).2 =
      (validate_config [("port", Value.int 80)]
        [Value.obj [("parameter", Value.str "b")],
         Value.obj [("parameter", Value.str "port"), ("type", Value.str "integer"),
           ("min", Value.int 1024)]]).2 :=
  c8_permutation_invariance [("port", Value.int 80)]
    [Value.obj [("parameter", Value.str "port"), ("type", Value.str "integer"),
       ("min", Value.int 1024)],
     Value.obj [("parameter", Value.str "b")]]
    [Value.obj [("parameter", Value.str "b")],
     Value.obj [("parameter", Value.str "port"), ("type", Value.str "integer"),
       ("min", Value.int 1024)]]
    (by decide) (List.Perm.swap _ _ _)

end MisconfigChecker
